import Mathlib

/-!
# Scholar Citation Tracker — verification of `scripts/check_citations.py`

Shallow embedding of the pure logic of the tracker script:
title normalization and the old-article lookup map, `compute_diff`,
the pagination loop of `fetch_all_articles` (over an abstract page
oracle), the snapshot update performed by `main`, the sorting done by
`build_email_html`, and `generate_dashboard_data`.

JSON dictionaries become structures; `d.get(key, default)` on an
optional field becomes an `Option` field read with a default.  Python
`str.strip().lower()` is modelled by `pyStrip`/`pyLower` below.
Machine-independent Python integers are modelled by `Nat` where the
data model guarantees non-negativity (citation counts, indices) and by
`Int` where a difference may be negative (the aggregate `gained`).
-/

namespace ScholarTracker

/-- Python `SCHOLAR_ID` constant. -/
def SCHOLAR_ID : String := "R_1o4RIAAAAJ"

/-- Python `SCHOLAR_NAME` constant. -/
def SCHOLAR_NAME : String := "Negar Arabzadeh"

/-- Python `str.strip()`: drop leading and trailing whitespace
(expressed over the string's character list). -/
def pyStrip (s : String) : String :=
  ⟨(((s.data.dropWhile Char.isWhitespace).reverse.dropWhile Char.isWhitespace).reverse)⟩

/-- Python `str.lower()`: lower-case every character. -/
def pyLower (s : String) : String := ⟨s.data.map Char.toLower⟩

/-- Normalized title key: Python `title.strip().lower()` as used for the
old-article lookup in `compute_diff`. -/
def normKey (s : String) : String := pyLower (pyStrip s)

/-- An article record as persisted in the snapshot (`old_data["articles"]`
entries): `a.get("title", "")` and `a.get("citation_count", 0)` are the
fields `compute_diff` reads; `year`, `link`, `authors` are carried along. -/
structure OldArticle where
  title : String
  citation_count : Nat
  year : String
  link : String
  authors : String
  deriving DecidableEq

/-- A freshly fetched article (an entry of the SerpAPI `articles` array).
`cited_by = some v` models `a["cited_by"]` being a dict with
`a["cited_by"].get("value", 0) = v`; `none` models an absent or
non-dict `cited_by` (then the script uses `0`). -/
structure FetchedArticle where
  title : String
  cited_by : Option Nat
  year : String
  link : String
  authors : String
  deriving DecidableEq

/-- `new_count` as computed in `compute_diff` (and reused when `main`
rebuilds the stored article list). -/
def newCount (a : FetchedArticle) : Nat := a.cited_by.getD 0

/-- One entry of the snapshot's `history` list. -/
structure HistoryPoint where
  date : String
  total_citations : Nat
  h_index : Nat
  i10_index : Nat
  deriving DecidableEq

/-- The persisted snapshot (`citations.json`). -/
structure Snapshot where
  scholar_id : String
  name : String
  affiliation : String
  last_checked : String
  total_citations : Nat
  h_index : Nat
  i10_index : Nat
  articles : List OldArticle
  history : List HistoryPoint
  deriving DecidableEq

/-- One row of `profile["cited_by"]["table"]`.  A field `some v` models
the key being present in the row with `row[key].get("all", 0) = v`. -/
structure MetricsRow where
  citations : Option Nat
  h_index : Option Nat
  i10_index : Option Nat
  deriving DecidableEq

/-- The profile response: `profile.get("cited_by", {}).get("table", [])`
collapsed to the table, plus `profile.get("author", {}).get("affiliations")`. -/
structure Profile where
  table : List MetricsRow
  affiliations : Option String
  deriving DecidableEq

/-- The metric-extraction loop over the `cited_by.table` rows, shared
verbatim between `compute_diff` (lines 152–161) and `main`
(lines 404–413): each row that carries a key overwrites the running
value, starting from `(0, 0, 0)` (total, h-index, i10-index). -/
def extractMetrics (table : List MetricsRow) : Nat × Nat × Nat :=
  table.foldl (fun acc row =>
    let t := match row.citations with | some v => v | none => acc.1
    let h := match row.h_index with | some v => v | none => acc.2.1
    let i := match row.i10_index with | some v => v | none => acc.2.2
    (t, h, i)) (0, 0, 0)

/-- The old-article lookup built in `compute_diff`:
Python dict insertion (`old_articles_map[key] = a`) for each old article
whose normalized title key is nonempty; a later insertion with the same
key overwrites an earlier one. -/
def buildOldMap (olds : List OldArticle) : String → Option OldArticle :=
  olds.foldl (fun m a =>
    let key := normKey a.title
    if key = "" then m else fun k => if k = key then some a else m k)
    (fun _ => none)

/-- `old_count` as read off the lookup map in `compute_diff`:
the stored article's `citation_count` when the key is present, else 0. -/
def oldCountOf (m : String → Option OldArticle) (key : String) : Nat :=
  match m key with
  | some o => o.citation_count
  | none => 0

/-- One entry of `articles_with_new_citations`. -/
structure DeltaEntry where
  title : String
  old_count : Nat
  new_count : Nat
  gained : Nat
  year : String
  deriving DecidableEq

/-- The per-article body of the `compute_diff` loop: strip the title,
lower-case it for the lookup, and record a delta entry exactly when the
new count strictly exceeds the old one. -/
def deltaEntry (m : String → Option OldArticle) (a : FetchedArticle) : Option DeltaEntry :=
  let title := pyStrip a.title
  let key := pyLower title
  let new_count := newCount a
  let old_count := oldCountOf m key
  if old_count < new_count then
    some { title := title, old_count := old_count, new_count := new_count,
           gained := new_count - old_count, year := a.year }
  else none

/-- The `total_citations` part of a diff. -/
structure TotalsDiff where
  old : Nat
  new : Nat
  gained : Int
  deriving DecidableEq

/-- The `h_index` / `i10_index` part of a diff. -/
structure IndexDiff where
  old : Nat
  new : Nat
  deriving DecidableEq

/-- The result of `compute_diff`. -/
structure Diff where
  total_citations : TotalsDiff
  h_index : IndexDiff
  i10_index : IndexDiff
  articles_with_new_citations : List DeltaEntry
  has_changes : Bool
  deriving DecidableEq

/-- `compute_diff(old_data, profile, articles)` (lines 147–202). -/
def compute_diff (old_data : Snapshot) (profile : Profile)
    (articles : List FetchedArticle) : Diff :=
  let m := extractMetrics profile.table
  let old_total := old_data.total_citations
  let old_h := old_data.h_index
  let old_i10 := old_data.i10_index
  let old_articles_map := buildOldMap old_data.articles
  let new_citations_articles :=
    articles.foldl (fun acc a =>
      match deltaEntry old_articles_map a with
      | some e => acc ++ [e]
      | none => acc) []
  { total_citations :=
      { old := old_total, new := m.1, gained := (m.1 : Int) - (old_total : Int) },
    h_index := { old := old_h, new := m.2.1 },
    i10_index := { old := old_i10, new := m.2.2 },
    articles_with_new_citations := new_citations_articles,
    has_changes := decide (old_total < m.1) }

/-- The pagination loop of `fetch_all_articles` (lines 83–109), over an
abstract oracle `pages` giving the article list returned at a given
`start` offset.  The loop requests a page, stops if it is empty,
otherwise accumulates it, advances the offset by the fixed page size
100, and stops once the offset exceeds 500. -/
def fetchLoop (pages : Nat → List FetchedArticle) (start : Nat)
    (acc : List FetchedArticle) : List FetchedArticle :=
  let articles := pages start
  if articles.isEmpty then acc
  else
    let acc2 := acc ++ articles
    let start2 := start + 100
    if _h500 : 500 < start2 then acc2
    else fetchLoop pages start2 acc2
termination_by 600 - start
decreasing_by simp_wf; omega

/-- `fetch_all_articles()` (lines 77–111): run the pagination loop from
offset 0 with an empty accumulator. -/
def fetch_all_articles (pages : Nat → List FetchedArticle) : List FetchedArticle :=
  fetchLoop pages 0 []

/-- The sort performed by `build_email_html` (line 215):
`sorted(articles, key=lambda x: x["gained"], reverse=True)` — a stable
sort, descending by `gained`. -/
def emailArticlesSorted (diff : Diff) : List DeltaEntry :=
  diff.articles_with_new_citations.mergeSort (fun x y => decide (y.gained ≤ x.gained))

/-- The rows actually rendered: the top 20 of the sorted list (line 218). -/
def emailArticleRows (diff : Diff) : List DeltaEntry :=
  (emailArticlesSorted diff).take 20

/-- The history point appended by `main` (lines 442–449). -/
def historyPoint (profile : Profile) (now : String) : HistoryPoint :=
  let m := extractMetrics profile.table
  { date := now, total_citations := m.1, h_index := m.2.1, i10_index := m.2.2 }

/-- The stored-article projection `main` applies to each fetched article
(lines 432–441). -/
def snapshotArticle (a : FetchedArticle) : OldArticle :=
  { title := a.title, citation_count := newCount a, year := a.year,
    link := a.link, authors := a.authors }

/-- The snapshot-update step of `main` (lines 423–453): rebuild the
snapshot from the fetched data, append a history point, and keep only
the last 365 history entries (`history[-365:]`, modelled by dropping
all but the final 365 elements). -/
def buildNewData (old_data : Snapshot) (profile : Profile)
    (articles : List FetchedArticle) (now : String) : Snapshot :=
  let m := extractMetrics profile.table
  let history := old_data.history ++ [historyPoint profile now]
  { scholar_id := SCHOLAR_ID,
    name := SCHOLAR_NAME,
    affiliation := profile.affiliations.getD "UC Berkeley",
    last_checked := now,
    total_citations := m.1,
    h_index := m.2.1,
    i10_index := m.2.2,
    articles := articles.map snapshotArticle,
    history := history.drop (history.length - 365) }

/-- The `latest_diff` summary object of the dashboard export. -/
structure LatestDiff where
  gained : Int
  articles_count : Nat
  deriving DecidableEq

/-- The dashboard JSON document (`docs/data.json`). -/
structure DashboardData where
  name : String
  affiliation : String
  total_citations : Nat
  h_index : Nat
  i10_index : Nat
  last_checked : String
  articles : List OldArticle
  history : List HistoryPoint
  latest_diff : Option LatestDiff
  deriving DecidableEq

/-- `generate_dashboard_data(data, diff)` (lines 357–376), as the pure
projection it writes: the first 50 articles (`[:50]`), the last 90
history points (`[-90:]`), and the `latest_diff` summary exactly when
`diff["has_changes"]` holds. -/
def generate_dashboard_data (data : Snapshot) (diff : Diff) : DashboardData :=
  { name := data.name,
    affiliation := data.affiliation,
    total_citations := data.total_citations,
    h_index := data.h_index,
    i10_index := data.i10_index,
    last_checked := data.last_checked,
    articles := data.articles.take 50,
    history := data.history.drop (data.history.length - 90),
    latest_diff :=
      if diff.has_changes then
        some { gained := diff.total_citations.gained,
               articles_count := diff.articles_with_new_citations.length }
      else none }

/-! ## Helper lemmas -/

/-- The append-only accumulation loop of `compute_diff` is an order-preserving
`filterMap` over the fetched article list. -/
theorem foldl_push_eq_filterMap (f : FetchedArticle → Option DeltaEntry)
    (l : List FetchedArticle) (acc : List DeltaEntry) :
    l.foldl (fun acc a => match f a with | some e => acc ++ [e] | none => acc) acc
      = acc ++ l.filterMap f := by
  induction l generalizing acc with
  | nil => simp
  | cons a l ih =>
    cases h : f a <;> simp [h, ih, List.filterMap_cons]

/-- `articles_with_new_citations` is the order-preserving `filterMap` of the
per-article loop body over the fetched articles. -/
theorem compute_diff_articles_eq (old_data : Snapshot) (profile : Profile)
    (articles : List FetchedArticle) :
    (compute_diff old_data profile articles).articles_with_new_citations
      = articles.filterMap (deltaEntry (buildOldMap old_data.articles)) := by
  simp [compute_diff, foldl_push_eq_filterMap]

/-- Inserting one more old article into the lookup map: the new article wins
on its own (nonempty) key and every other key is unchanged. -/
theorem buildOldMap_append (xs : List OldArticle) (a : OldArticle) (k : String) :
    buildOldMap (xs ++ [a]) k =
      if normKey a.title ≠ "" ∧ k = normKey a.title then some a
      else buildOldMap xs k := by
  unfold buildOldMap
  rw [List.foldl_append]
  by_cases h1 : normKey a.title = "" <;> by_cases h2 : k = normKey a.title <;>
    simp [h1, h2]

/-- Soundness of the lookup map: a hit comes from an old article whose
normalized title is the queried key. -/
theorem buildOldMap_mem (olds : List OldArticle) (k : String) (o : OldArticle)
    (h : buildOldMap olds k = some o) : o ∈ olds ∧ normKey o.title = k := by
  induction olds using List.reverseRecOn with
  | nil => simp [buildOldMap] at h
  | append_singleton xs a ih =>
    rw [buildOldMap_append] at h
    by_cases hc : normKey a.title ≠ "" ∧ k = normKey a.title
    · rw [if_pos hc] at h
      obtain rfl := Option.some.inj h
      exact ⟨by simp, hc.2.symm⟩
    · rw [if_neg hc] at h
      obtain ⟨hmem, hkey⟩ := ih h
      exact ⟨by simp [hmem], hkey⟩

/-- Old articles whose title normalizes to the empty string are never in the
lookup map. -/
theorem buildOldMap_empty_key (olds : List OldArticle) :
    buildOldMap olds "" = none := by
  induction olds using List.reverseRecOn with
  | nil => rfl
  | append_singleton xs a ih =>
    rw [buildOldMap_append, if_neg]
    · exact ih
    · rintro ⟨hne, hc⟩
      exact hne hc.symm

/-- If no old article carries the queried normalized key, the lookup misses. -/
theorem buildOldMap_none_of_not_mem (olds : List OldArticle) (k : String)
    (h : ∀ o ∈ olds, normKey o.title ≠ k) : buildOldMap olds k = none := by
  cases hm : buildOldMap olds k with
  | none => rfl
  | some o =>
    obtain ⟨hmem, hkey⟩ := buildOldMap_mem olds k o hm
    exact absurd hkey (h o hmem)

/-! ## Concrete fixtures used by witnesses -/

/-- A snapshot with stored total 100 and an empty article list. -/
def exSnapshot : Snapshot :=
  { scholar_id := SCHOLAR_ID, name := SCHOLAR_NAME, affiliation := "",
    last_checked := "", total_citations := 100, h_index := 10, i10_index := 12,
    articles := [], history := [] }

/-- A profile reporting total 103, h-index 11. -/
def exProfile : Profile :=
  { table := [{ citations := some 103, h_index := some 11, i10_index := none }],
    affiliations := none }

/-- A stored article titled `"A"` with 5 citations. -/
def exOldArticle : OldArticle :=
  { title := "A", citation_count := 5, year := "2020", link := "", authors := "" }

/-- A snapshot whose article list is `[exOldArticle]`. -/
def exSnapshotB : Snapshot :=
  { scholar_id := SCHOLAR_ID, name := SCHOLAR_NAME, affiliation := "",
    last_checked := "", total_citations := 100, h_index := 10, i10_index := 12,
    articles := [exOldArticle], history := [] }

/-- A fetched article titled `"B"`, unseen in `exSnapshotB`, with 1 citation. -/
def exNewB : FetchedArticle :=
  { title := "B", cited_by := some 1, year := "2024", link := "", authors := "" }

/-- A stored article titled `" Foo Bar "` with 7 citations. -/
def exFooBar : OldArticle :=
  { title := " Foo Bar ", citation_count := 7, year := "2019", link := "", authors := "" }

/-! ## Claims -/

/-- **C1.** For every old snapshot, fetched metrics and article list, the diff
returned by `compute_diff` has `has_changes` true iff the new total strictly
exceeds the old total, its `total_citations.gained` equals new minus old,
`gained` is positive whenever `has_changes` is true, and `has_changes` is
false whenever the new total does not exceed the old one. -/
theorem c1_has_changes_iff_total_increase (old_data : Snapshot) (profile : Profile)
    (articles : List FetchedArticle) :
    ((compute_diff old_data profile articles).has_changes = true
        ↔ old_data.total_citations < (extractMetrics profile.table).1)
    ∧ (compute_diff old_data profile articles).total_citations.gained
        = ((extractMetrics profile.table).1 : Int) - (old_data.total_citations : Int)
    ∧ ((compute_diff old_data profile articles).has_changes = true
        → 0 < (compute_diff old_data profile articles).total_citations.gained)
    ∧ ((extractMetrics profile.table).1 ≤ old_data.total_citations
        → (compute_diff old_data profile articles).has_changes = false) := by
  refine ⟨by simp [compute_diff], rfl, ?_, ?_⟩
  · intro h
    simp only [compute_diff, decide_eq_true_eq] at h ⊢
    omega
  · intro h
    simp only [compute_diff, decide_eq_false_iff_not]
    omega

/-- Witness for C1: on the concrete fixtures the total rose from 100 to 103,
so `has_changes` holds and `gained` is positive. -/
theorem c1_witness :
    (compute_diff exSnapshot exProfile []).has_changes = true
    ∧ 0 < (compute_diff exSnapshot exProfile []).total_citations.gained := by
  have h := c1_has_changes_iff_total_increase exSnapshot exProfile []
  have hc : (compute_diff exSnapshot exProfile []).has_changes = true :=
    h.1.mpr (by decide)
  exact ⟨hc, h.2.2.1 hc⟩

/-- **C2.** A fetched article whose normalized title does not occur among the
old snapshot's normalized article titles gets prior count 0; if its new count
is positive it appears in `articles_with_new_citations` with `old_count = 0`
and `gained` equal to its `new_count`. -/
theorem c2_unseen_article_counts_from_zero (old_data : Snapshot) (profile : Profile)
    (articles : List FetchedArticle) (a : FetchedArticle)
    (hmem : a ∈ articles)
    (hnew : ∀ o ∈ old_data.articles, normKey o.title ≠ normKey a.title)
    (hpos : 0 < newCount a) :
    oldCountOf (buildOldMap old_data.articles) (normKey a.title) = 0
    ∧ ({ title := pyStrip a.title, old_count := 0, new_count := newCount a,
         gained := newCount a, year := a.year } : DeltaEntry)
        ∈ (compute_diff old_data profile articles).articles_with_new_citations := by
  have hnone := buildOldMap_none_of_not_mem _ _ hnew
  have h0 : oldCountOf (buildOldMap old_data.articles) (normKey a.title) = 0 := by
    simp [oldCountOf, hnone]
  refine ⟨h0, ?_⟩
  rw [compute_diff_articles_eq]
  refine List.mem_filterMap.mpr ⟨a, hmem, ?_⟩
  have h0' : oldCountOf (buildOldMap old_data.articles) (pyLower (pyStrip a.title)) = 0 := h0
  simp [deltaEntry, h0', hpos]

/-- Witness for C2: article `"B"` is unseen in `exSnapshotB` and gains its
full count of 1. -/
theorem c2_witness :
    oldCountOf (buildOldMap exSnapshotB.articles) (normKey exNewB.title) = 0
    ∧ ({ title := pyStrip exNewB.title, old_count := 0, new_count := newCount exNewB,
         gained := newCount exNewB, year := exNewB.year } : DeltaEntry)
        ∈ (compute_diff exSnapshotB exProfile [exNewB]).articles_with_new_citations :=
  c2_unseen_article_counts_from_zero exSnapshotB exProfile [exNewB] exNewB
    (by decide) (by decide) (by decide)

/-- **C3.** Article matching is invariant under surrounding whitespace and
letter case of titles: titles with the same normalized key look up the same
prior count, and an old article whose title normalizes to a new title's
(nonempty) key is matched to it. -/
theorem c3_title_matching_normalized (olds : List OldArticle) (o : OldArticle)
    (s t : String) (hst : normKey s = normKey t)
    (hot : normKey o.title = normKey t) (hne : normKey o.title ≠ "") :
    oldCountOf (buildOldMap olds) (normKey s) = oldCountOf (buildOldMap olds) (normKey t)
    ∧ buildOldMap [o] (normKey t) = some o := by
  refine ⟨by rw [hst], ?_⟩
  show buildOldMap ([] ++ [o]) (normKey t) = some o
  rw [buildOldMap_append, if_pos ⟨hne, hot.symm⟩]

/-- Witness for C3: the old title `" Foo Bar "` matches the new title
`"foo bar"`. -/
theorem c3_witness :
    oldCountOf (buildOldMap [exFooBar]) (normKey " Foo Bar ")
        = oldCountOf (buildOldMap [exFooBar]) (normKey "foo bar")
    ∧ buildOldMap [exFooBar] (normKey "foo bar") = some exFooBar :=
  c3_title_matching_normalized [exFooBar] exFooBar " Foo Bar " "foo bar"
    (by decide) (by decide) (by decide)

/-- **C5.** There are inputs for which `compute_diff` reports `has_changes`
while `articles_with_new_citations` is empty: the aggregate total moved but
no individual article's count increased. -/
theorem c5_changes_with_empty_article_list :
    ∃ (old_data : Snapshot) (profile : Profile) (articles : List FetchedArticle),
      (compute_diff old_data profile articles).has_changes = true
      ∧ (compute_diff old_data profile articles).articles_with_new_citations = [] :=
  ⟨exSnapshot, exProfile, [], by decide, rfl⟩

/-- **C6.** `compute_diff` does not sort: `articles_with_new_citations` lists
its entries in the order of the corresponding fetched articles (it is an
order-preserving `filterMap` of the fetched list); the descending-by-`gained`
sort happens only in the email rendering, whose sorted list is pairwise
non-increasing in `gained`. -/
theorem c6_diff_order_preserved_email_sorts (old_data : Snapshot) (profile : Profile)
    (articles : List FetchedArticle) :
    (compute_diff old_data profile articles).articles_with_new_citations
      = articles.filterMap (deltaEntry (buildOldMap old_data.articles))
    ∧ ∀ diff : Diff,
        (emailArticlesSorted diff).Pairwise (fun x y => y.gained ≤ x.gained) := by
  refine ⟨compute_diff_articles_eq old_data profile articles, ?_⟩
  intro diff
  unfold emailArticlesSorted
  refine List.Pairwise.imp ?_
    (List.sorted_mergeSort ?_ ?_ diff.articles_with_new_citations)
  · intro a b h
    simpa using h
  · intro a b c h1 h2
    simp only [decide_eq_true_eq] at h1 h2 ⊢
    omega
  · intro a b
    simp only [Bool.or_eq_true, decide_eq_true_eq]
    omega

set_option maxRecDepth 4000 in
/-- **C7.** After one run of `main`'s snapshot-update step the persisted
history has length at most 365; it is a suffix of the old history with the
new point appended (so exactly the most recent entries are kept, the oldest
are dropped), its length is `min (old+1) 365`, and the new point is last. -/
theorem c7_history_bounded_fifo (old_data : Snapshot) (profile : Profile)
    (articles : List FetchedArticle) (now : String) :
    ((buildNewData old_data profile articles now).history).length ≤ 365
    ∧ ((buildNewData old_data profile articles now).history).length
        = min (old_data.history.length + 1) 365
    ∧ (buildNewData old_data profile articles now).history
        <:+ old_data.history ++ [historyPoint profile now]
    ∧ ((buildNewData old_data profile articles now).history).getLast?
        = some (historyPoint profile now) := by
  have hhist : (buildNewData old_data profile articles now).history
      = (old_data.history ++ [historyPoint profile now]).drop
          ((old_data.history ++ [historyPoint profile now]).length - 365) := rfl
  have hlen : (old_data.history ++ [historyPoint profile now]).length
      = old_data.history.length + 1 := by simp
  refine ⟨?_, ?_, ?_, ?_⟩
  · rw [hhist, List.length_drop, hlen]; omega
  · rw [hhist, List.length_drop, hlen]; omega
  · rw [hhist]; exact List.drop_suffix _ _
  · rw [hhist]
    have hne : (old_data.history ++ [historyPoint profile now]).drop
        ((old_data.history ++ [historyPoint profile now]).length - 365) ≠ [] := by
      apply List.ne_nil_of_length_pos
      rw [List.length_drop, hlen]; omega
    calc ((old_data.history ++ [historyPoint profile now]).drop
            ((old_data.history ++ [historyPoint profile now]).length - 365)).getLast?
        = (old_data.history ++ [historyPoint profile now]).getLast? := by
          conv_rhs => rw [← List.take_append_drop
            ((old_data.history ++ [historyPoint profile now]).length - 365)
            (old_data.history ++ [historyPoint profile now])]
          rw [List.getLast?_append_of_ne_nil _ hne]
      _ = some (historyPoint profile now) := List.getLast?_concat _

/-- **C8.** The dashboard export's `latest_diff` is the
`{gained, articles_count}` summary exactly when the diff's `has_changes` is
true, and `null` (`none`) exactly when it is false. -/
theorem c8_latest_diff_exactly_on_changes (data : Snapshot) (diff : Diff) :
    ((generate_dashboard_data data diff).latest_diff
        = some { gained := diff.total_citations.gained,
                 articles_count := diff.articles_with_new_citations.length }
      ↔ diff.has_changes = true)
    ∧ ((generate_dashboard_data data diff).latest_diff = none
      ↔ diff.has_changes = false) := by
  cases h : diff.has_changes <;> simp [generate_dashboard_data, h]

/-- **C9.** The dashboard export holds at most 50 articles and at most 90
history points, whatever the snapshot sizes. -/
theorem c9_dashboard_bounds (data : Snapshot) (diff : Diff) :
    (generate_dashboard_data data diff).articles.length ≤ 50
    ∧ (generate_dashboard_data data diff).history.length ≤ 90 := by
  constructor
  · show (data.articles.take 50).length ≤ 50
    simp
  · show ((data.history).drop (data.history.length - 90)).length ≤ 90
    rw [List.length_drop]; omega

/-- **C10.** In the old-article lookup, a later article with the same
normalized (nonempty) key overwrites an earlier one, titles normalizing to
the empty string are excluded from the map entirely, and a fetched article
with an empty normalized title reads a prior count of 0. -/
theorem c10_duplicate_titles_last_wins :
    (∀ (xs : List OldArticle) (a : OldArticle) (k : String),
        buildOldMap (xs ++ [a]) k =
          if normKey a.title ≠ "" ∧ k = normKey a.title then some a
          else buildOldMap xs k)
    ∧ (∀ olds : List OldArticle, buildOldMap olds "" = none)
    ∧ (∀ (olds : List OldArticle) (a : FetchedArticle), normKey a.title = "" →
        oldCountOf (buildOldMap olds) (pyLower (pyStrip a.title)) = 0) := by
  refine ⟨buildOldMap_append, buildOldMap_empty_key, ?_⟩
  intro olds a h
  have h' : pyLower (pyStrip a.title) = "" := h
  rw [h']
  simp [oldCountOf, buildOldMap_empty_key]

/-- A stored article titled `"Dup"`, shadowed by a later duplicate. -/
def exDup1 : OldArticle :=
  { title := "Dup", citation_count := 1, year := "2018", link := "", authors := "" }

/-- A later stored article whose title also normalizes to `"dup"`. -/
def exDup2 : OldArticle :=
  { title := " dup ", citation_count := 9, year := "2021", link := "", authors := "" }

/-- A fetched article whose title is whitespace only. -/
def exBlankTitle : FetchedArticle :=
  { title := "   ", cited_by := some 3, year := "", link := "", authors := "" }

/-- Witness for C10 at the duplicate-title and blank-title fixtures. -/
theorem c10_witness :
    buildOldMap ([exDup1] ++ [exDup2]) "dup" =
      (if normKey exDup2.title ≠ "" ∧ "dup" = normKey exDup2.title then some exDup2
       else buildOldMap [exDup1] "dup")
    ∧ buildOldMap [exDup1, exDup2] "" = none
    ∧ oldCountOf (buildOldMap [exDup1, exDup2]) (pyLower (pyStrip exBlankTitle.title)) = 0 :=
  ⟨c10_duplicate_titles_last_wins.1 [exDup1] exDup2 "dup",
   c10_duplicate_titles_last_wins.2.1 [exDup1, exDup2],
   c10_duplicate_titles_last_wins.2.2 [exDup1, exDup2] exBlankTitle (by decide)⟩

/-- Once `500 - start < 100 * k`, the pagination loop performs at most `k`
further page fetches, each contributing at most 100 articles when every page
holds at most 100. -/
theorem fetchLoop_length_le (pages : Nat → List FetchedArticle)
    (hpage : ∀ n, (pages n).length ≤ 100) :
    ∀ (k start : Nat) (acc : List FetchedArticle), 500 - start < 100 * k →
      (fetchLoop pages start acc).length ≤ acc.length + 100 * k := by
  intro k
  induction k with
  | zero => intro start acc h; omega
  | succ k ih =>
    intro start acc h
    rw [fetchLoop]
    split
    · omega
    · dsimp only
      split
      · simp only [List.length_append]
        have := hpage start
        omega
      · have hrec := ih (start + 100) (acc ++ pages start) (by omega)
        simp only [List.length_append] at hrec
        have := hpage start
        omega

/-- A single dummy fetched article used to populate full pages. -/
def exDummy : FetchedArticle :=
  { title := "x", cited_by := none, year := "", link := "", authors := "" }

/-- A page oracle whose every page is full: 100 articles per offset. -/
def fullPages : Nat → List FetchedArticle := fun _ => List.replicate 100 exDummy

set_option maxRecDepth 40000 in
/-- **C4 counterexample.** When every page returns 100 articles (the requested
page size), the loop accumulates pages at offsets 0, 100, …, 500 before the
`start > 500` guard fires, returning 600 articles — strictly more than 500,
so the returned article list can exceed 500 articles. -/
theorem c4_counterexample_600_articles :
    (fetch_all_articles fullPages).length = 600
    ∧ 500 < (fetch_all_articles fullPages).length := by
  have h : (fetch_all_articles fullPages).length = 600 := by
    simp [fetch_all_articles, fetchLoop, fullPages]
  exact ⟨h, by omega⟩

/-- **C4 (amended).** `fetch_all_articles` (over a given sequence of pages)
stops when a page returns zero articles or once the offset counter exceeds
500, i.e. after at most six pages; hence when every page returns at most the
requested 100 articles the returned list never holds more than 600 articles
(and 600 is attained, so 500 is not an upper bound). -/
theorem c4_fetch_all_articles_bounded (pages : Nat → List FetchedArticle)
    (hpage : ∀ n, (pages n).length ≤ 100) :
    (fetch_all_articles pages).length ≤ 600 := by
  have h := fetchLoop_length_le pages hpage 6 0 [] (by omega)
  simpa [fetch_all_articles] using h

/-- Witness for C4 (amended): the all-empty source satisfies the page bound
and yields at most 600 articles. -/
theorem c4_witness :
    (∀ n, ((fun _ : Nat => ([] : List FetchedArticle)) n).length ≤ 100)
    ∧ (fetch_all_articles (fun _ : Nat => ([] : List FetchedArticle))).length ≤ 600 :=
  ⟨fun _ => by simp,
   c4_fetch_all_articles_bounded (fun _ : Nat => ([] : List FetchedArticle))
     (fun _ => by simp)⟩

end ScholarTracker
